import Mathlib

/-!
Verification development for the browser-extension web agent
(Observe → Decide → Act → Verify control loop).

Shallow embedding conventions:
* JavaScript numbers used as timestamps / coordinates are modelled as `Int`;
  counters and list positions as `Nat`.
* JavaScript string truthiness (`undefined`/`null`/`""` are falsy) is modelled
  by `Option String` together with `truthy`.
* Platform DOM primitives (`document.querySelector`, `getElementById`,
  XPath evaluation, …) are modelled as oracle functions returning
  `Option` of a page element; the repository's own logic (branch order,
  synthetic-reference parsing, positional sorting, validation, caching) is
  embedded faithfully from the source.
* `String.prototype.toLowerCase`, `trim`, `includes`, `startsWith` are
  modelled by executable ASCII list functions below.
* `Array.prototype.sort` (stable since ES2019) is modelled by the stable
  insertion sort `stableSort`, parameterised by the source's comparator
  rendered as a "strictly greater" Boolean predicate.
-/

/-- ASCII model of `String.prototype.toLowerCase` on one character. -/
def lowerChar (c : Char) : Char :=
  if 'A' ≤ c ∧ c ≤ 'Z' then Char.ofNat (c.toNat + 32) else c

/-- ASCII model of `String.prototype.toLowerCase`. -/
def jsToLower (s : String) : String :=
  ⟨s.data.map lowerChar⟩

/-- Whitespace test used by the model of `String.prototype.trim`. -/
def isJsSpace (c : Char) : Bool :=
  c = ' ' ∨ c = '\t' ∨ c = '\n' ∨ c = '\r'

/-- Model of `String.prototype.trim`. -/
def jsTrim (s : String) : String :=
  ⟨(((s.data.dropWhile isJsSpace).reverse.dropWhile isJsSpace).reverse)⟩

/-- Does the list start with the given pattern?  (List-level `startsWith`.) -/
def leadsWith : List Char → List Char → Bool
  | [], _ => true
  | _ :: _, [] => false
  | p :: ps, c :: cs => p = c && leadsWith ps cs

/-- Model of `String.prototype.startsWith`. -/
def strStarts (s pat : String) : Bool :=
  leadsWith pat.data s.data

/-- Does the list contain the given pattern as a contiguous run? -/
def containsSeq (p : List Char) : List Char → Bool
  | [] => leadsWith p []
  | c :: cs => leadsWith p (c :: cs) || containsSeq p cs

/-- Model of `String.prototype.includes`. -/
def strContains (s pat : String) : Bool :=
  containsSeq pat.data s.data

/-- Model of `String.prototype.endsWith`. -/
def strEnds (s pat : String) : Bool :=
  leadsWith pat.data.reverse s.data.reverse

/-- Drop the first `n` characters (model of `String.prototype.slice(n)`). -/
def strDrop (s : String) : Nat → String :=
  fun n => ⟨s.data.drop n⟩

/-- Numeric value of a digit run (the uses below are guarded by all-digit
checks, matching `parseInt` on such inputs). -/
def digitsToNat (l : List Char) : Nat :=
  l.foldl (fun acc c => acc * 10 + (c.toNat - '0'.toNat)) 0

/-- JavaScript truthiness of an optional string parameter. -/
def truthy : Option String → Bool
  | none => false
  | some s => s ≠ ""

/-- Insert `x` into `l` keeping every earlier element `y` with
`gt y x = false` in front of `x`: the insertion step of a stable
ascending sort driven by a strictly-greater predicate. -/
def insertStable (gt : α → α → Bool) (x : α) : List α → List α
  | [] => [x]
  | y :: ys => if gt y x then x :: y :: ys else y :: insertStable gt x ys

/-- Stable ascending sort; models `Array.prototype.sort` (stable since
ES2019) with the comparator `cmp a b > 0 ↔ gt a b`. -/
def stableSort (gt : α → α → Bool) (l : List α) : List α :=
  l.foldl (fun acc x => insertStable gt x acc) []

theorem mem_insertStable (gt : α → α → Bool) (x : α) (l : List α) (z : α) :
    z ∈ insertStable gt x l ↔ z = x ∨ z ∈ l := by
  induction l with
  | nil => simp [insertStable]
  | cons y ys ih =>
    simp only [insertStable]
    by_cases h : gt y x = true
    · simp [h, List.mem_cons]
    · simp only [if_neg h, List.mem_cons, ih]
      tauto

theorem mem_stableSort (gt : α → α → Bool) (l : List α) (z : α) :
    z ∈ stableSort gt l ↔ z ∈ l := by
  suffices h : ∀ acc : List α,
      z ∈ l.foldl (fun acc x => insertStable gt x acc) acc ↔ z ∈ acc ∨ z ∈ l by
    have := h []
    simpa [stableSort] using this
  induction l with
  | nil => simp
  | cons y ys ih =>
    intro acc
    simp only [List.foldl_cons, ih, mem_insertStable, List.mem_cons]
    tauto

/-! ## Error classifier (`src/error-handler.js`, class `ErrorHandler`) -/

namespace ErrHandler

/-- The recovery-strategy vocabulary of the error classifier. -/
inductive StrategyType where
  | retry_step
  | alternative_action
  | skip_step
  | reorient_agent
  | ask_user_help
deriving DecidableEq, Repr

/-- A determined recovery strategy (its `type` and `reason` fields). -/
structure Strategy where
  type : StrategyType
  reason : String
deriving DecidableEq, Repr

/-- The part of `errorInfo` consumed by strategy determination. -/
structure ErrorInfo where
  error : String
  attempt : Nat
deriving DecidableEq, Repr

/-- `ErrorHandler.ruleBasedStrategyDetermination`, embedded from
`src/error-handler.js` lines 124–191. -/
def ruleBasedStrategyDetermination (info : ErrorInfo) : Strategy :=
  let e := jsToLower info.error
  if strContains e "not found" || strContains e "no such element" then
    if info.attempt ≤ 3 then
      ⟨.reorient_agent, "Element not found, need to reorient"⟩
    else
      ⟨.ask_user_help, "Repeatedly unable to find element, need human help"⟩
  else if strContains e "timeout" then
    if info.attempt ≤ 2 then
      ⟨.retry_step, "Timeout error, worth retrying"⟩
    else
      ⟨.skip_step, "Repeated timeouts, try skipping"⟩
  else if strContains e "navigation" || strContains e "navigate" then
    ⟨.reorient_agent, "Navigation issue, need to reorient"⟩
  else if strContains e "permission" || strContains e "access denied" then
    ⟨.ask_user_help, "Permission issue, need user intervention"⟩
  else if info.attempt ≤ 2 then
    ⟨.retry_step, "Default retry strategy"⟩
  else if info.attempt ≤ 4 then
    ⟨.alternative_action, "Try alternative approach"⟩
  else
    ⟨.ask_user_help, "Multiple failures, need human help"⟩

/-- `ErrorHandler.determineRecoveryStrategy` (`src/error-handler.js`
lines 42–60).  The AI-determined path (taken only past attempt 2 and only
when a backend service is attached; it falls back to the rule-based
determination on failure) is modelled by the `ai` argument:
`some s` = the AI produced strategy `s`, `none` = no service or AI failure. -/
def determineRecoveryStrategy (info : ErrorInfo) (ai : Option Strategy) :
    Strategy :=
  if info.attempt ≤ 2 then
    ⟨.retry_step, "First retry attempt " ++ toString info.attempt ++ "/2"⟩
  else
    match ai with
    | some s => s
    | none => ruleBasedStrategyDetermination info

end ErrHandler

/-! ## Step retry budget (`src/unnamed/part_005`, `AutonomousWebAgent`) -/

namespace Agent

/-- The retry-relevant slice of the agent's workflow state:
`currentStepIndex`, the per-step `retryCount` map, and `maxRetries`
(`options.maxRetries || 3`). -/
structure WorkflowRetryState where
  currentStepIndex : Nat
  retryCount : Nat → Nat
  maxRetries : Nat

/-- `AutonomousWebAgent.handleStepFailure` (`src/unnamed/part_005`
lines 1629–1642): increments the current step's retry counter; returns the
updated state and whether re-orientation (recovery) was invoked
(`true` = `reorientAgent` called, `false` = simple retry). -/
def handleStepFailure (s : WorkflowRetryState) : WorkflowRetryState × Bool :=
  let stepId := s.currentStepIndex
  let c := s.retryCount stepId + 1
  let s' : WorkflowRetryState :=
    { s with retryCount := fun i => if i = stepId then c else s.retryCount i }
  if c < s.maxRetries then (s', false) else (s', true)

/-- Number of simple-retry outcomes produced by up to `n` consecutive
failures of the current step before the first invocation of recovery
(the failure loop of `executeWorkflow`, lines 892–927, keeps
`currentStepIndex` unchanged while a step keeps failing). -/
def retriesBeforeReorient (s : WorkflowRetryState) : Nat → Nat
  | 0 => 0
  | n + 1 =>
    let r := handleStepFailure s
    if r.2 then 0 else 1 + retriesBeforeReorient r.1 n

theorem handleStepFailure_spec (s : WorkflowRetryState) :
    (handleStepFailure s).1.currentStepIndex = s.currentStepIndex
    ∧ (handleStepFailure s).1.maxRetries = s.maxRetries
    ∧ (handleStepFailure s).1.retryCount s.currentStepIndex =
        s.retryCount s.currentStepIndex + 1
    ∧ ((handleStepFailure s).2 = false ↔
        s.retryCount s.currentStepIndex + 1 < s.maxRetries) := by
  by_cases h : s.retryCount s.currentStepIndex + 1 < s.maxRetries <;>
    simp [handleStepFailure, h]

theorem retriesBeforeReorient_le (s : WorkflowRetryState) (n : Nat) :
    retriesBeforeReorient s n + s.retryCount s.currentStepIndex
      ≤ max s.maxRetries (s.retryCount s.currentStepIndex) := by
  induction n generalizing s with
  | zero =>
    simp only [retriesBeforeReorient, Nat.zero_add]
    exact Nat.le_max_right _ _
  | succ n ih =>
    obtain ⟨h1, h2, h3, h4⟩ := handleStepFailure_spec s
    simp only [retriesBeforeReorient]
    by_cases hb : (handleStepFailure s).2 = true
    · simp only [hb, if_pos]
      have := Nat.le_max_right s.maxRetries (s.retryCount s.currentStepIndex)
      omega
    · simp only [Bool.not_eq_true] at hb
      simp only [hb, Bool.false_eq_true, if_false]
      have hlt : s.retryCount s.currentStepIndex + 1 < s.maxRetries := h4.mp hb
      have hih := ih (handleStepFailure s).1
      rw [h1, h3, h2] at hih
      have hmax1 : max s.maxRetries (s.retryCount s.currentStepIndex + 1) =
          s.maxRetries := Nat.max_eq_left (by omega)
      have hmax2 : max s.maxRetries (s.retryCount s.currentStepIndex) =
          s.maxRetries := Nat.max_eq_left (by omega)
      omega

end Agent

/-! ## Observation cache (`src/unnamed/part_005`, `AutonomousWebAgent`:
`observe`, `shouldReuseDomCache`, `updateDomCache`, `computeContentDigest`) -/

namespace Agent

/-- A cached UI snapshot: the shape stored both in `this.domCache` and in
`this.context.lastUi` by `updateDomCache` (`elements` is `none` when the
stored value was not an array). -/
structure UiSnapshot where
  url : String
  htmlDigest : String
  elements : Option (List String)
  timestamp : Int
deriving DecidableEq, Repr

/-- The cache-relevant slice of the agent state.  `domCacheTtl` is
`options.domCacheTtl ?? 15000` (milliseconds). -/
structure AgentCacheState where
  lastUi : Option UiSnapshot
  domCache : Option UiSnapshot
  domCacheTtl : Int
deriving DecidableEq, Repr

/-- `toString(16)` digit. -/
def hexDigit (n : Nat) : Char :=
  if n < 10 then Char.ofNat ('0'.toNat + n) else Char.ofNat ('a'.toNat + (n - 10))

/-- Hex digits of `n`, most significant first (fuel-driven; 16 digits cover
the 32-bit hashes produced below). -/
def natToHexAux : Nat → Nat → List Char
  | 0, _ => []
  | _ + 1, 0 => []
  | fuel + 1, n => natToHexAux fuel (n / 16) ++ [hexDigit (n % 16)]

/-- Model of `Number.prototype.toString(16)` on the 32-bit hash values. -/
def natToHex (n : Nat) : String :=
  if n = 0 then "0" else ⟨natToHexAux 16 n⟩

/-- `AutonomousWebAgent.computeContentDigest`: 31-based rolling hash of the
first 5000 characters, kept in 32 bits (`>>> 0`), rendered in hex; `'0'` for
empty content.  `charCodeAt` is modelled by the character's code point
(faithful on the Basic Multilingual Plane). -/
def computeContentDigest (content : String) : String :=
  if content = "" then "0"
  else
    let sample := content.data.take 5000
    let hash := sample.foldl (fun h c => (h * 31 + c.toNat) % 4294967296) 0
    natToHex hash

/-- `AutonomousWebAgent.shouldReuseDomCache` (`src/unnamed/part_005`
lines 1402–1412): the DOM cache is reused iff it has elements, the URL and
digest are truthy and match, and the entry's age is within the TTL. -/
def shouldReuseDomCache (st : AgentCacheState) (now : Int)
    (url digest : String) : Bool :=
  match st.domCache with
  | none => false
  | some c =>
    c.elements.isSome &&
      (url ≠ "" && c.url = url) &&
      (digest ≠ "" && c.htmlDigest = digest) &&
      (now - c.timestamp ≤ st.domCacheTtl)

/-- `AutonomousWebAgent.updateDomCache`: stores the freshly extracted
elements in both `domCache` and `context.lastUi` (the source stores a copy
`[...elements]` in `lastUi`; lists are values here). -/
def updateDomCache (st : AgentCacheState) (now : Int) (url digest : String)
    (elements : List String) : AgentCacheState :=
  { st with
    domCache := some ⟨url, digest, some elements, now⟩
    lastUi := some ⟨url, digest, some elements, now⟩ }

/-- The fast-path guard at the top of `observe` (lines 985–992): the
`context.lastUi` snapshot is reused when its URL equals the current URL,
its age is within the TTL, and it holds an element array — the content
digest is not consulted on this path. -/
def lastUiFresh (st : AgentCacheState) (now : Int) (url : String) : Bool :=
  match st.lastUi with
  | none => false
  | some ui =>
    ui.url = url && (now - ui.timestamp ≤ st.domCacheTtl) && ui.elements.isSome

/-- Result of one `observe` call: the returned descriptor list, the updated
agent state, and whether a fresh extraction was performed. -/
structure ObserveResult where
  elements : List String
  state : AgentCacheState
  extractionPerformed : Bool
deriving DecidableEq, Repr

/-- `AutonomousWebAgent.observe` (`src/unnamed/part_005` lines 978–1036).
`url` is the active tab URL, `normalizedHtml` the page HTML after
`normalizeHtmlForHash` (the regex-based normalization itself is performed
upstream of this model), and `extracted` the descriptor list the extraction
backends produce when invoked (the local DOM analyzer and the LLM fallback
both end in `updateDomCache` and are collapsed into one extraction call,
which is what the cache claims count). -/
def observe (st : AgentCacheState) (now : Int) (url : String)
    (normalizedHtml : String) (extracted : List String) : ObserveResult :=
  if lastUiFresh st now url then
    { elements := (st.lastUi.bind UiSnapshot.elements).getD []
      state := st
      extractionPerformed := false }
  else
    let digest := computeContentDigest normalizedHtml
    if shouldReuseDomCache st now url digest then
      { elements := (st.domCache.bind UiSnapshot.elements).getD []
        state := st
        extractionPerformed := false }
    else
      { elements := extracted
        state := updateDomCache st now url digest extracted
        extractionPerformed := true }

end Agent

/-! ## Claim theorems (first batch) -/

/-- C3: for any step of the plan, the number of local retry attempts made on
that step before recovery (re-orientation) is invoked never exceeds
`maxRetries` (default 3): however many consecutive failures occur, the count
of simple-retry outcomes before `reorientAgent` runs is at most
`maxRetries`. -/
theorem claim_C3_retry_budget (s : Agent.WorkflowRetryState) (n : Nat) :
    Agent.retriesBeforeReorient s n ≤ s.maxRetries := by
  have h := Agent.retriesBeforeReorient_le s n
  rcases Nat.le_total (s.retryCount s.currentStepIndex) s.maxRetries with hc | hc
  · have hm := Nat.max_eq_left hc
    omega
  · have hm := Nat.max_eq_right hc
    omega

/-- C4: for every failing step and every error, when the recorded attempt
number is at most 2, recovery-strategy determination returns `retry_step`
regardless of the error's content (and regardless of any AI-suggested
strategy, which is consulted only past attempt 2). -/
theorem claim_C4_attempt_le_two_retry (info : ErrHandler.ErrorInfo)
    (ai : Option ErrHandler.Strategy) (h : info.attempt ≤ 2) :
    (ErrHandler.determineRecoveryStrategy info ai).type =
      ErrHandler.StrategyType.retry_step := by
  simp [ErrHandler.determineRecoveryStrategy, h]

/-- Witness for C4: at attempt 1 even a "not found" error (which the
rule-based classifier would map to re-orientation) is classified
`retry_step`. -/
theorem claim_C4_witness :
    (ErrHandler.determineRecoveryStrategy ⟨"Element not found", 1⟩ none).type =
      ErrHandler.StrategyType.retry_step :=
  claim_C4_attempt_le_two_retry ⟨"Element not found", 1⟩ none (by decide)

/-- C1 counterexample: with a context snapshot for URL `"u"` cached at time 0
under digest `digest "x"`, observing at time 1000 (within the 15000 ms TTL)
with the *changed* normalized content `"y"` (different digest) still reuses
the cached descriptors and performs no extraction — contradicting "the cache
is reused only if URL and digest both match …, else the descriptors are
recomputed". -/
theorem claim_C1_counterexample :
    Agent.computeContentDigest "y" ≠ Agent.computeContentDigest "x"
    ∧ (Agent.observe
        { lastUi := some ⟨"u", Agent.computeContentDigest "x", some ["e1"], 0⟩
          domCache := some ⟨"u", Agent.computeContentDigest "x", some ["e1"], 0⟩
          domCacheTtl := 15000 } 1000 "u" "y" ["e2"]).extractionPerformed = false
    ∧ (Agent.observe
        { lastUi := some ⟨"u", Agent.computeContentDigest "x", some ["e1"], 0⟩
          domCache := some ⟨"u", Agent.computeContentDigest "x", some ["e1"], 0⟩
          domCacheTtl := 15000 } 1000 "u" "y" ["e2"]).elements = ["e1"] := by
  refine ⟨by decide, ?_, ?_⟩ <;> rfl

/-- C1 (amended): observing twice with an unchanged URL and unchanged
normalized content digest within the TTL window returns the identical
descriptor list without a second extraction call; and descriptors are served
from a cache (extraction skipped) only when either the context-snapshot
fast path applies (URL match and age ≤ TTL — the digest is not consulted
there) or the DOM cache applies (URL and digest match and age ≤ TTL);
otherwise they are recomputed. -/
theorem claim_C1_amended :
    (∀ (st : Agent.AgentCacheState) (now : Int) (url html : String)
        (ext : List String) (now' : Int) (html' : String) (ext' : List String),
        (Agent.observe st now url html ext).extractionPerformed = true →
        0 ≤ now' - now → now' - now ≤ st.domCacheTtl →
        Agent.computeContentDigest html' = Agent.computeContentDigest html →
        (Agent.observe (Agent.observe st now url html ext).state
            now' url html' ext').elements
            = (Agent.observe st now url html ext).elements
        ∧ (Agent.observe (Agent.observe st now url html ext).state
            now' url html' ext').extractionPerformed = false)
    ∧ (∀ (st : Agent.AgentCacheState) (now : Int) (url html : String)
        (ext : List String),
        (Agent.observe st now url html ext).extractionPerformed = false →
        Agent.lastUiFresh st now url = true ∨
          Agent.shouldReuseDomCache st now url
            (Agent.computeContentDigest html) = true) := by
  constructor
  · intro st now url html ext now' html' ext' hextr h0 httl _hdig
    by_cases h1 : Agent.lastUiFresh st now url = true
    · simp [Agent.observe, h1] at hextr
    · by_cases h2 : Agent.shouldReuseDomCache st now url
          (Agent.computeContentDigest html) = true
      · simp [Agent.observe, h1, h2] at hextr
      · have hstate : (Agent.observe st now url html ext).state =
            Agent.updateDomCache st now url
              (Agent.computeContentDigest html) ext := by
          simp [Agent.observe, h1, h2]
        have helems : (Agent.observe st now url html ext).elements = ext := by
          simp [Agent.observe, h1, h2]
        have hfresh : Agent.lastUiFresh
            (Agent.updateDomCache st now url
              (Agent.computeContentDigest html) ext) now' url = true := by
          simp [Agent.lastUiFresh, Agent.updateDomCache]
          omega
        rw [hstate, helems]
        constructor
        · simp only [Agent.observe, hfresh, if_true]
          simp [Agent.updateDomCache]
        · simp only [Agent.observe, hfresh, if_true]
  · intro st now url html ext hextr
    by_cases h1 : Agent.lastUiFresh st now url = true
    · exact Or.inl h1
    · by_cases h2 : Agent.shouldReuseDomCache st now url
          (Agent.computeContentDigest html) = true
      · exact Or.inr h2
      · simp [Agent.observe, h1, h2] at hextr

/-- Witness for C1 (amended): starting with empty caches, a first observation
extracts; a second observation 1000 ms later with the same URL and content
returns the same descriptor list with no extraction. -/
theorem claim_C1_witness :
    (Agent.observe
        (Agent.observe ⟨none, none, 15000⟩ 0 "u" "x" ["e"]).state
        1000 "u" "x" ["f"]).elements
      = (Agent.observe ⟨none, none, 15000⟩ 0 "u" "x" ["e"]).elements
    ∧ (Agent.observe
        (Agent.observe ⟨none, none, 15000⟩ 0 "u" "x" ["e"]).state
        1000 "u" "x" ["f"]).extractionPerformed = false :=
  claim_C1_amended.1 ⟨none, none, 15000⟩ 0 "u" "x" ["e"] 1000 "x" ["f"]
    (by rfl) (by decide) (by decide) rfl

/-! ## Decision backend client (`src/unnamed/part_005`, `GeminiService`:
`query`, `isModelNotFound`) -/

namespace Gemini

/-- Word characters for the regex word-boundary `\b`. -/
def isWordChar (c : Char) : Bool :=
  ('a' ≤ c && c ≤ 'z') || ('A' ≤ c && c ≤ 'Z') || ('0' ≤ c && c ≤ '9') || c = '_'

/-- Is there an occurrence of `pat` at the head of `l` with word boundaries
on both sides (`prev` is the character just before `l`)? -/
def boundedHere (pat : List Char) (prev : Option Char) (l : List Char) : Bool :=
  (match prev with | none => true | some p => !isWordChar p) &&
    leadsWith pat l &&
    (match l.drop pat.length with | [] => true | c :: _ => !isWordChar c)

/-- Scan for a word-bounded occurrence of `pat`. -/
def hasWordBounded (pat : List Char) (prev : Option Char) : List Char → Bool
  | [] => false
  | c :: cs => boundedHere pat prev (c :: cs) || hasWordBounded pat (some c) cs

/-- Model of `/\bPAT\b/.test(s)` for a digit pattern. -/
def testWordBounded (s pat : String) : Bool :=
  hasWordBounded pat.data none s.data

/-- `GeminiService.isModelNotFound` (`src/unnamed/part_005` lines 133–139):
`/\b404\b/.test(message) && message.includes('models/')`.  Errors are
modelled by their message strings. -/
def isModelNotFound (msg : String) : Bool :=
  testWordBounded msg "404" && strContains msg "models/"

/-- The `/\b503\b/.test(error.message)` check in `query`. -/
def isServiceUnavailable (msg : String) : Bool :=
  testWordBounded msg "503"

/-- What one request attempt against one candidate model produces
(`makeRequest` + `parseResponse` collapsed): a parsed response or a thrown
error message. -/
inductive GeminiStep where
  | success (resp : String)
  | failure (msg : String)
deriving DecidableEq, Repr

/-- Outcome of the inner attempt loop for one candidate model. -/
inductive CandidateOutcome where
  | answered (resp : String)
  | moveOn
  | fatal (msg : String)
deriving DecidableEq, Repr

/-- The inner `for (attempt = 1; attempt <= retries; attempt++)` loop of
`GeminiService.query` (lines 22–64) for one candidate model, with the
attempt outcomes supplied by `oracle`: a success returns the parsed
response; a model-not-found error breaks to the next candidate; a final
attempt ending in 503 breaks to the next candidate; a final attempt ending
in any other error throws; a non-final error retries (after backoff). -/
def runAttempts (oracle : Nat → GeminiStep) (retries : Nat)
    (attempt : Nat) : CandidateOutcome :=
  if _h : attempt ≤ retries then
    match oracle attempt with
    | .success r => .answered r
    | .failure m =>
      if isModelNotFound m then .moveOn
      else if heq : attempt = retries then
        if isServiceUnavailable m then .moveOn
        else .fatal ("Gemini API failed after " ++ toString retries ++
          " attempts: " ++ m)
      else runAttempts oracle retries (attempt + 1)
  else .moveOn
termination_by retries + 1 - attempt
decreasing_by omega

/-- Overall outcome of `GeminiService.query`. -/
inductive QueryOutcome where
  | answered (model resp : String)
  | failed (msg : String)
  | unavailable
deriving DecidableEq, Repr

/-- The outer `for (const candidate of this.modelCandidates)` loop of
`GeminiService.query`: each candidate gets the full `retries` budget
starting at attempt 1; when every candidate is exhausted the aggregate
`'Gemini API models are unavailable…'` error is thrown (`.unavailable`). -/
def query (oracle : String → Nat → GeminiStep) (retries : Nat) :
    List String → QueryOutcome
  | [] => .unavailable
  | c :: rest =>
    match runAttempts (oracle c) retries 1 with
    | .answered r => .answered c r
    | .moveOn => query oracle retries rest
    | .fatal m => .failed m

end Gemini

/-- C5: a model-not-found signal from a candidate advances the backend
client to the next candidate, which is processed with its full retry budget
(the recursive call `query oracle retries rest` restarts at attempt 1 with
the same `retries`); and the aggregate unavailability failure is raised
exactly when every candidate's attempt loop ends by moving on — i.e. only
once all candidates are exhausted. -/
theorem claim_C5_candidate_fallback :
    (∀ (oracle : String → Nat → Gemini.GeminiStep) (retries : Nat)
        (c : String) (rest : List String) (m : String),
        1 ≤ retries →
        oracle c 1 = .failure m →
        Gemini.isModelNotFound m = true →
        Gemini.query oracle retries (c :: rest) =
          Gemini.query oracle retries rest)
    ∧ (∀ (oracle : String → Nat → Gemini.GeminiStep) (retries : Nat)
        (cs : List String),
        Gemini.query oracle retries cs = .unavailable ↔
          ∀ c ∈ cs, Gemini.runAttempts (oracle c) retries 1 = .moveOn) := by
  constructor
  · intro oracle retries c rest m h1 hor hnf
    have hrun : Gemini.runAttempts (oracle c) retries 1 = .moveOn := by
      rw [Gemini.runAttempts]
      simp [h1, hor, hnf]
    simp [Gemini.query, hrun]
  · intro oracle retries cs
    induction cs with
    | nil => simp [Gemini.query]
    | cons c rest ih =>
      cases hr : Gemini.runAttempts (oracle c) retries 1 <;>
        simp [Gemini.query, hr, ih]

/-- Witness for C5: with candidate `"m1"` answering attempt 1 by a 404
"models/…" error and candidate `"m2"` succeeding, the query over
`["m1", "m2"]` equals the query over `["m2"]` alone. -/
theorem claim_C5_witness :
    Gemini.query
      (fun c _ => if c = "m1"
        then Gemini.GeminiStep.failure
          "Gemini API error 404: models/m1 is not found for API version v1beta"
        else Gemini.GeminiStep.success "ok") 3 ["m1", "m2"]
    = Gemini.query
      (fun c _ => if c = "m1"
        then Gemini.GeminiStep.failure
          "Gemini API error 404: models/m1 is not found for API version v1beta"
        else Gemini.GeminiStep.success "ok") 3 ["m2"] :=
  claim_C5_candidate_fallback.1 _ 3 "m1" ["m2"]
    "Gemini API error 404: models/m1 is not found for API version v1beta"
    (by decide) (by decide) (by decide)

/-! ## Verification short-circuit (`src/unnamed/part_005`,
`AutonomousWebAgent`: `executeStep` verification phase, `canAutoVerify`,
`autoVerifyNavigation`, `normalizeUrl`) -/

namespace Agent

/-- The action inside a decision (`decision.action`): its `type` and its
`parameters.url`. -/
structure AwaAction where
  type : String
  url : Option String
deriving DecidableEq, Repr

/-- A decision produced by the Decide phase (the fields the verification
phase consumes). -/
structure AwaDecision where
  action : AwaAction
deriving DecidableEq, Repr

/-- A verification verdict (`{success, reason, autoVerified}`). -/
structure VerificationResult where
  success : Bool
  reason : String
  autoVerified : Bool
deriving DecidableEq, Repr

/-- Model of the browser `URL` constructor restricted to hostname
extraction on absolute `http(s)://` URLs: the authority is what precedes
the first `/`, `?` or `#`; userinfo up to the last `@` is dropped; the
port after `:` is dropped; hosts are lower-cased.  Returns `none` where
the constructor would throw. -/
def urlHostname (s : String) : Option String :=
  let rest? : Option (List Char) :=
    if strStarts s "http://" then some (s.data.drop 7)
    else if strStarts s "https://" then some (s.data.drop 8)
    else none
  match rest? with
  | none => none
  | some rest =>
    let authority := rest.takeWhile (fun c => c ≠ '/' && c ≠ '?' && c ≠ '#')
    let hostport := (authority.reverse.takeWhile (fun c => c ≠ '@')).reverse
    let host := hostport.takeWhile (fun c => c ≠ ':')
    if host.isEmpty then none else some ⟨host.map lowerChar⟩

/-- `AutonomousWebAgent.normalizeUrl` (`src/unnamed/part_005`
lines 1588–1600), tracked at the hostname level (the claim compares
hostnames only): falsy input gives `null`; inputs not starting with
`"http"` are prefixed with `"https://"`; parse failures give `null`. -/
def normalizeUrl (url : String) : Option String :=
  if url = "" then none
  else urlHostname (if strStarts url "http" then url else "https://" ++ url)

/-- `AutonomousWebAgent.canAutoVerify` (lines 1540–1552): the last action
is a `goto` with a truthy target URL. -/
def canAutoVerify (d : AwaDecision) : Bool :=
  if jsToLower d.action.type ≠ "goto" then false
  else truthy d.action.url

/-- `AutonomousWebAgent.autoVerifyNavigation` (lines 1554–1586): with a
non-empty current URL and both URLs parseable, equal hostnames yield an
auto-verified success; anything else yields `null` (the `evidence` field of
the source result, the serialized current URL, is not tracked). -/
def autoVerifyNavigation (d : AwaDecision) (currentUrl : String) :
    Option VerificationResult :=
  if currentUrl = "" then none
  else
    match normalizeUrl (d.action.url.getD ""), normalizeUrl currentUrl with
    | some targetHost, some currentHost =>
      if currentHost = targetHost then
        some { success := true
               reason := "Navigated to expected host " ++ targetHost
               autoVerified := true }
      else none
    | _, _ => none

/-- The verification phase of `AutonomousWebAgent.executeStep`
(lines 950–958): auto-verification is consulted only for auto-verifiable
decisions, and the Decision Backend's `verify` is called exactly when it
produced nothing.  Returns the verdict and whether the backend was
invoked. -/
def verificationPhase (d : AwaDecision) (currentUrl : String)
    (backendVerdict : VerificationResult) : VerificationResult × Bool :=
  match (if canAutoVerify d then autoVerifyNavigation d currentUrl
         else none) with
  | some v => (v, false)
  | none => (backendVerdict, true)

end Agent

/-- C6: if the last executed action was a `goto` whose target URL's host
equals the host of the resulting current address, verification returns
`success: true` without invoking the Decision Backend, whatever verdict the
backend would have produced. -/
theorem claim_C6_navigation_short_circuit (d : Agent.AwaDecision)
    (currentUrl : String) (backendVerdict : Agent.VerificationResult)
    (h : String) (htype : jsToLower d.action.type = "goto")
    (hurl : truthy d.action.url = true) (hcur : currentUrl ≠ "")
    (htarget : Agent.normalizeUrl (d.action.url.getD "") = some h)
    (hcurrent : Agent.normalizeUrl currentUrl = some h) :
    (Agent.verificationPhase d currentUrl backendVerdict).1.success = true
    ∧ (Agent.verificationPhase d currentUrl backendVerdict).2 = false := by
  have hcan : Agent.canAutoVerify d = true := by
    simp [Agent.canAutoVerify, htype, hurl]
  have hauto : Agent.autoVerifyNavigation d currentUrl =
      some { success := true
             reason := "Navigated to expected host " ++ h
             autoVerified := true } := by
    simp [Agent.autoVerifyNavigation, hcur, htarget, hcurrent]
  simp [Agent.verificationPhase, hcan, hauto]

/-- Witness for C6: `goto example.com` landing on
`https://example.com/page` auto-verifies with no backend call, even though
the backend verdict on offer was a failure. -/
theorem claim_C6_witness :
    (Agent.verificationPhase ⟨⟨"goto", some "example.com"⟩⟩
      "https://example.com/page" ⟨false, "backend says no", false⟩).1.success
      = true
    ∧ (Agent.verificationPhase ⟨⟨"goto", some "example.com"⟩⟩
      "https://example.com/page" ⟨false, "backend says no", false⟩).2
      = false :=
  claim_C6_navigation_short_circuit ⟨⟨"goto", some "example.com"⟩⟩
    "https://example.com/page" ⟨false, "backend says no", false⟩
    "example.com" (by decide) (by decide) (by decide) (by decide) (by decide)

/-! ## Action dispatch and validation (`src/unnamed/part_005`,
`AutonomousWebAgent`: `act`, `validateActionParameters`,
`enrichActionParameters`) -/

namespace Agent

/-- The action-parameter fields consulted by enrichment and validation
(string-valued; `none` = absent). -/
structure ActParams where
  url : Option String := none
  selector : Option String := none
  agent_id : Option String := none
  agentId : Option String := none
  text : Option String := none
  value : Option String := none
  query : Option String := none
  option : Option String := none
deriving DecidableEq, Repr

/-- An action as received by `act` (`action.type` / `action.parameters`;
`none` models an absent field). -/
structure AwAction where
  type : Option String
  parameters : Option ActParams
deriving DecidableEq, Repr

/-- `AutonomousWebAgent.validateActionParameters` (`src/unnamed/part_005`
lines 1157–1223): per-type required-parameter checks, switching on the
lower-cased action type; unknown types only log a warning. -/
def validateActionParameters (ty : String) (p : ActParams) :
    Except String Unit :=
  match jsToLower ty with
  | "goto" =>
    if !truthy p.url then
      .error "URL parameter is required for goto action"
    else .ok ()
  | "click" =>
    if !truthy p.selector && !truthy p.agent_id && !truthy p.text then
      .error "Selector, agent_id, or text parameter is required for click action"
    else .ok ()
  | "type" =>
    if !truthy p.selector && !truthy p.agent_id then
      .error "Selector or agent_id parameter is required for type action"
    else if !truthy p.value && !truthy p.text then
      .error "Value or text parameter is required for type action"
    else .ok ()
  | "search" =>
    if !truthy p.selector && !truthy p.agent_id then
      .error "Selector or agent_id parameter is required for search action"
    else if !truthy p.value && !truthy p.text && !truthy p.query then
      .error "Value, text, or query parameter is required for search action"
    else .ok ()
  | "select" =>
    if !truthy p.selector && !truthy p.agent_id then
      .error "Selector or agent_id parameter is required for select action"
    else if !truthy p.value && !truthy p.option && !truthy p.text then
      .error "Value, option, or text parameter is required for select action"
    else .ok ()
  | "scroll" => .ok ()
  | "hover" =>
    if !truthy p.selector && !truthy p.agent_id then
      .error "Selector or agent_id parameter is required for hover action"
    else .ok ()
  | "wait_for_element" =>
    if !truthy p.selector && !truthy p.agent_id then
      .error "Selector or agent_id parameter is required for wait_for_element action"
    else .ok ()
  | "handle_popup" => .ok ()
  | _ => .ok ()

/-- `AutonomousWebAgent.enrichActionParameters` (lines 1225–1248).  The
DOM-cache lookups are modelled by oracles: `cacheNonempty` is the
`domCache?.elements?.length` guard; `resolveSel agentId` is
`buildSelectorFromElement(findDomElementByAgentId(agentId))` with falsy
results as `none`; `resolveAid sel` is `findDomElementBySelector(sel)` with
its truthy `agent_id`, falsy results as `none`. -/
def enrichActionParameters (cacheNonempty : Bool)
    (resolveSel resolveAid : String → Option String) (p : ActParams) :
    ActParams :=
  if !cacheNonempty then p
  else
    let agentIdVal := if truthy p.agent_id then p.agent_id else p.agentId
    let p1 :=
      if !truthy p.selector && truthy agentIdVal then
        match resolveSel (agentIdVal.getD "") with
        | some sel => if sel = "" then p else { p with selector := some sel }
        | none => p
      else p
    if !truthy p1.agent_id && !truthy p1.agentId && truthy p.selector then
      match resolveAid (p.selector.getD "") with
      | some aid => if aid = "" then p1 else { p1 with agent_id := some aid }
      | none => p1
    else p1

/-- `AutonomousWebAgent.act` (lines 1131–1152): structural checks, then
parameter enrichment, then validation, then the single dispatch to
`webAutomation.executeAction`.  `.ok a` carries the dispatched action;
`.error` means the failure was thrown before any dispatch. -/
def act (cacheNonempty : Bool)
    (resolveSel resolveAid : String → Option String) (a : AwAction) :
    Except String AwAction :=
  match a.type with
  | none => .error "Action type is required"
  | some t =>
    if t = "" then .error "Action type is required"
    else
      match a.parameters with
      | none => .error "Action parameters are required"
      | some p =>
        let p' := enrichActionParameters cacheNonempty resolveSel resolveAid p
        match validateActionParameters t p' with
        | .error m => .error m
        | .ok _ => .ok { type := some t, parameters := some p' }

/-- The DOM commands issued by one `act` call: exactly the dispatched
action on success, nothing when `act` throws. -/
def domCommandsIssued (r : Except String AwAction) : List AwAction :=
  match r with
  | .ok a => [a]
  | .error _ => []

end Agent

theorem enrich_preserves (cn : Bool) (rs ra : String → Option String)
    (p : Agent.ActParams) :
    (Agent.enrichActionParameters cn rs ra p).url = p.url
    ∧ (Agent.enrichActionParameters cn rs ra p).text = p.text
    ∧ (Agent.enrichActionParameters cn rs ra p).value = p.value
    ∧ (Agent.enrichActionParameters cn rs ra p).query = p.query
    ∧ (Agent.enrichActionParameters cn rs ra p).option = p.option := by
  simp only [Agent.enrichActionParameters]
  repeat' split
  all_goals simp

theorem enrich_noop (cn : Bool) (rs ra : String → Option String)
    (p : Agent.ActParams) (hsel : truthy p.selector = false)
    (haid : truthy p.agent_id = false) (hcam : truthy p.agentId = false) :
    Agent.enrichActionParameters cn rs ra p = p := by
  simp [Agent.enrichActionParameters, hsel, haid, hcam]

theorem enrich_selector (cn : Bool) (rs ra : String → Option String)
    (p : Agent.ActParams) (hsel : truthy p.selector = true) :
    (Agent.enrichActionParameters cn rs ra p).selector = p.selector := by
  simp only [Agent.enrichActionParameters, hsel]
  repeat' split
  all_goals simp_all

theorem validate_goto (q : Agent.ActParams) :
    Agent.validateActionParameters "goto" q =
      (if !truthy q.url then
        .error "URL parameter is required for goto action" else .ok ()) := rfl

theorem validate_click (q : Agent.ActParams) :
    Agent.validateActionParameters "click" q =
      (if !truthy q.selector && !truthy q.agent_id && !truthy q.text then
        .error "Selector, agent_id, or text parameter is required for click action"
      else .ok ()) := rfl

theorem validate_type_action (q : Agent.ActParams) :
    Agent.validateActionParameters "type" q =
      (if !truthy q.selector && !truthy q.agent_id then
        .error "Selector or agent_id parameter is required for type action"
      else if !truthy q.value && !truthy q.text then
        .error "Value or text parameter is required for type action"
      else .ok ()) := rfl

theorem validate_search (q : Agent.ActParams) :
    Agent.validateActionParameters "search" q =
      (if !truthy q.selector && !truthy q.agent_id then
        .error "Selector or agent_id parameter is required for search action"
      else if !truthy q.value && !truthy q.text && !truthy q.query then
        .error "Value, text, or query parameter is required for search action"
      else .ok ()) := rfl

theorem validate_select (q : Agent.ActParams) :
    Agent.validateActionParameters "select" q =
      (if !truthy q.selector && !truthy q.agent_id then
        .error "Selector or agent_id parameter is required for select action"
      else if !truthy q.value && !truthy q.option && !truthy q.text then
        .error "Value, option, or text parameter is required for select action"
      else .ok ()) := rfl

theorem validate_hover (q : Agent.ActParams) :
    Agent.validateActionParameters "hover" q =
      (if !truthy q.selector && !truthy q.agent_id then
        .error "Selector or agent_id parameter is required for hover action"
      else .ok ()) := rfl

theorem validate_wait (q : Agent.ActParams) :
    Agent.validateActionParameters "wait_for_element" q =
      (if !truthy q.selector && !truthy q.agent_id then
        .error "Selector or agent_id parameter is required for wait_for_element action"
      else .ok ()) := rfl

/-- C2: for every action type in the vocabulary, invoking `act` with a
required parameter omitted fails with the corresponding invalid-parameters
error and issues zero DOM commands (nothing reaches
`webAutomation.executeAction`).  Required parameters per type: `goto` needs
a url; `click` needs a selector, agent id, or text; `type`/`search`/`select`
need a selector or agent id AND a value (text/query/option alternatives
included); `hover` and `wait_for_element` need a selector or agent id;
`scroll` and `handle_popup` have no required parameters, so the claim is
vacuous for them. -/
theorem claim_C2_validation_completeness :
    ∀ (cn : Bool) (rs ra : String → Option String) (p : Agent.ActParams),
    (truthy p.url = false →
      Agent.act cn rs ra ⟨some "goto", some p⟩ =
        .error "URL parameter is required for goto action"
      ∧ Agent.domCommandsIssued
          (Agent.act cn rs ra ⟨some "goto", some p⟩) = [])
    ∧ (truthy p.selector = false → truthy p.agent_id = false →
        truthy p.agentId = false → truthy p.text = false →
      Agent.act cn rs ra ⟨some "click", some p⟩ =
        .error "Selector, agent_id, or text parameter is required for click action"
      ∧ Agent.domCommandsIssued
          (Agent.act cn rs ra ⟨some "click", some p⟩) = [])
    ∧ (truthy p.selector = false → truthy p.agent_id = false →
        truthy p.agentId = false →
      Agent.act cn rs ra ⟨some "type", some p⟩ =
        .error "Selector or agent_id parameter is required for type action"
      ∧ Agent.domCommandsIssued
          (Agent.act cn rs ra ⟨some "type", some p⟩) = [])
    ∧ (truthy p.selector = true → truthy p.value = false →
        truthy p.text = false →
      Agent.act cn rs ra ⟨some "type", some p⟩ =
        .error "Value or text parameter is required for type action"
      ∧ Agent.domCommandsIssued
          (Agent.act cn rs ra ⟨some "type", some p⟩) = [])
    ∧ (truthy p.selector = false → truthy p.agent_id = false →
        truthy p.agentId = false →
      Agent.act cn rs ra ⟨some "search", some p⟩ =
        .error "Selector or agent_id parameter is required for search action"
      ∧ Agent.domCommandsIssued
          (Agent.act cn rs ra ⟨some "search", some p⟩) = [])
    ∧ (truthy p.selector = true → truthy p.value = false →
        truthy p.text = false → truthy p.query = false →
      Agent.act cn rs ra ⟨some "search", some p⟩ =
        .error "Value, text, or query parameter is required for search action"
      ∧ Agent.domCommandsIssued
          (Agent.act cn rs ra ⟨some "search", some p⟩) = [])
    ∧ (truthy p.selector = false → truthy p.agent_id = false →
        truthy p.agentId = false →
      Agent.act cn rs ra ⟨some "select", some p⟩ =
        .error "Selector or agent_id parameter is required for select action"
      ∧ Agent.domCommandsIssued
          (Agent.act cn rs ra ⟨some "select", some p⟩) = [])
    ∧ (truthy p.selector = true → truthy p.value = false →
        truthy p.option = false → truthy p.text = false →
      Agent.act cn rs ra ⟨some "select", some p⟩ =
        .error "Value, option, or text parameter is required for select action"
      ∧ Agent.domCommandsIssued
          (Agent.act cn rs ra ⟨some "select", some p⟩) = [])
    ∧ (truthy p.selector = false → truthy p.agent_id = false →
        truthy p.agentId = false →
      Agent.act cn rs ra ⟨some "hover", some p⟩ =
        .error "Selector or agent_id parameter is required for hover action"
      ∧ Agent.domCommandsIssued
          (Agent.act cn rs ra ⟨some "hover", some p⟩) = [])
    ∧ (truthy p.selector = false → truthy p.agent_id = false →
        truthy p.agentId = false →
      Agent.act cn rs ra ⟨some "wait_for_element", some p⟩ =
        .error "Selector or agent_id parameter is required for wait_for_element action"
      ∧ Agent.domCommandsIssued
          (Agent.act cn rs ra ⟨some "wait_for_element", some p⟩) = []) := by
  intro cn rs ra p
  have hpres := enrich_preserves cn rs ra p
  obtain ⟨hpu, hpt, hpv, hpq, hpo⟩ := hpres
  refine ⟨?_, ?_, ?_, ?_, ?_, ?_, ?_, ?_, ?_, ?_⟩
  · intro h
    have hv := validate_goto (Agent.enrichActionParameters cn rs ra p)
    rw [hpu, h] at hv
    simp only [Bool.not_false, if_true] at hv
    have herr : Agent.act cn rs ra ⟨some "goto", some p⟩ =
        .error "URL parameter is required for goto action" := by
      simp [Agent.act, hv]
    exact ⟨herr, by rw [herr]; rfl⟩
  · intro hs ha hc ht
    have hno := enrich_noop cn rs ra p hs ha hc
    have hv := validate_click p
    rw [hs, ha, ht] at hv
    simp only [Bool.not_false, Bool.and_self, if_true] at hv
    have herr : Agent.act cn rs ra ⟨some "click", some p⟩ =
        .error "Selector, agent_id, or text parameter is required for click action" := by
      simp [Agent.act, hno, hv]
    exact ⟨herr, by rw [herr]; rfl⟩
  · intro hs ha hc
    have hno := enrich_noop cn rs ra p hs ha hc
    have hv := validate_type_action p
    rw [hs, ha] at hv
    simp only [Bool.not_false, Bool.and_self, if_true] at hv
    have herr : Agent.act cn rs ra ⟨some "type", some p⟩ =
        .error "Selector or agent_id parameter is required for type action" := by
      simp [Agent.act, hno, hv]
    exact ⟨herr, by rw [herr]; rfl⟩
  · intro hs hv0 ht
    have hsel := enrich_selector cn rs ra p hs
    have hv := validate_type_action (Agent.enrichActionParameters cn rs ra p)
    rw [hsel, hpt, hpv, hs, hv0, ht] at hv
    simp only [Bool.not_true, Bool.not_false, Bool.false_and, Bool.and_self,
      if_false, if_true, Bool.false_eq_true] at hv
    have herr : Agent.act cn rs ra ⟨some "type", some p⟩ =
        .error "Value or text parameter is required for type action" := by
      simp [Agent.act, hv]
    exact ⟨herr, by rw [herr]; rfl⟩
  · intro hs ha hc
    have hno := enrich_noop cn rs ra p hs ha hc
    have hv := validate_search p
    rw [hs, ha] at hv
    simp only [Bool.not_false, Bool.and_self, if_true] at hv
    have herr : Agent.act cn rs ra ⟨some "search", some p⟩ =
        .error "Selector or agent_id parameter is required for search action" := by
      simp [Agent.act, hno, hv]
    exact ⟨herr, by rw [herr]; rfl⟩
  · intro hs hv0 ht hq
    have hsel := enrich_selector cn rs ra p hs
    have hv := validate_search (Agent.enrichActionParameters cn rs ra p)
    rw [hsel, hpt, hpv, hpq, hs, hv0, ht, hq] at hv
    simp only [Bool.not_true, Bool.not_false, Bool.false_and, Bool.and_self,
      if_false, if_true, Bool.false_eq_true] at hv
    have herr : Agent.act cn rs ra ⟨some "search", some p⟩ =
        .error "Value, text, or query parameter is required for search action" := by
      simp [Agent.act, hv]
    exact ⟨herr, by rw [herr]; rfl⟩
  · intro hs ha hc
    have hno := enrich_noop cn rs ra p hs ha hc
    have hv := validate_select p
    rw [hs, ha] at hv
    simp only [Bool.not_false, Bool.and_self, if_true] at hv
    have herr : Agent.act cn rs ra ⟨some "select", some p⟩ =
        .error "Selector or agent_id parameter is required for select action" := by
      simp [Agent.act, hno, hv]
    exact ⟨herr, by rw [herr]; rfl⟩
  · intro hs hv0 ho ht
    have hsel := enrich_selector cn rs ra p hs
    have hv := validate_select (Agent.enrichActionParameters cn rs ra p)
    rw [hsel, hpt, hpv, hpo, hs, hv0, ho, ht] at hv
    simp only [Bool.not_true, Bool.not_false, Bool.false_and, Bool.and_self,
      if_false, if_true, Bool.false_eq_true] at hv
    have herr : Agent.act cn rs ra ⟨some "select", some p⟩ =
        .error "Value, option, or text parameter is required for select action" := by
      simp [Agent.act, hv]
    exact ⟨herr, by rw [herr]; rfl⟩
  · intro hs ha hc
    have hno := enrich_noop cn rs ra p hs ha hc
    have hv := validate_hover p
    rw [hs, ha] at hv
    simp only [Bool.not_false, Bool.and_self, if_true] at hv
    have herr : Agent.act cn rs ra ⟨some "hover", some p⟩ =
        .error "Selector or agent_id parameter is required for hover action" := by
      simp [Agent.act, hno, hv]
    exact ⟨herr, by rw [herr]; rfl⟩
  · intro hs ha hc
    have hno := enrich_noop cn rs ra p hs ha hc
    have hv := validate_wait p
    rw [hs, ha] at hv
    simp only [Bool.not_false, Bool.and_self, if_true] at hv
    have herr : Agent.act cn rs ra ⟨some "wait_for_element", some p⟩ =
        .error "Selector or agent_id parameter is required for wait_for_element action" := by
      simp [Agent.act, hno, hv]
    exact ⟨herr, by rw [herr]; rfl⟩

/-- Witness for C2: a `type` action with a selector but no value fails with
the value-required error and issues no DOM commands; a `goto` action with
no url fails with the url-required error. -/
theorem claim_C2_witness :
    (Agent.act false (fun _ => none) (fun _ => none)
        ⟨some "type", some { selector := some "#q" }⟩ =
      .error "Value or text parameter is required for type action"
    ∧ Agent.domCommandsIssued (Agent.act false (fun _ => none)
        (fun _ => none) ⟨some "type", some { selector := some "#q" }⟩) = [])
    ∧ (Agent.act false (fun _ => none) (fun _ => none) ⟨some "goto", some {}⟩ =
      .error "URL parameter is required for goto action"
    ∧ Agent.domCommandsIssued (Agent.act false (fun _ => none)
        (fun _ => none) ⟨some "goto", some {}⟩) = []) :=
  ⟨(claim_C2_validation_completeness false (fun _ => none) (fun _ => none)
      { selector := some "#q" }).2.2.2.1 (by decide) (by decide) (by decide),
   (claim_C2_validation_completeness false (fun _ => none) (fun _ => none)
      {}).1 (by decide)⟩

/-! ## Popup handling (`src/unnamed/part_003`:
`WebPageController.handlePopup` lines 1170–1228 and
`AutonomousContentController.handleHandlePopup` lines 1936–1959 with its
message-listener wrapper) -/

namespace PageCtrl

/-- A modal/overlay candidate as returned by `document.querySelector`;
`visible` is the `offsetParent !== null` check. -/
structure Modal where
  visible : Bool
deriving DecidableEq, Repr

/-- The modal selector list of `WebPageController.handlePopup`. -/
def modalSelectors : List String :=
  [".modal", "[role=dialog]", ".dialog", ".popup",
   ".overlay", "[aria-modal=true]", ".modal-dialog"]

/-- The `for (const selector of modalSelectors)` scan: `modal` is
reassigned on every iteration and the loop breaks at the first visible
match, so the final value is the first visible match, or whatever the last
selector returned. -/
def findModalLoop (q : String → Option Modal) : List String → Option Modal
  | [] => none
  | s :: rest =>
    let m := q s
    if (match m with | some mm => mm.visible | none => false) then m
    else
      match rest with
      | [] => m
      | _ :: _ => findModalLoop q rest

/-- The result object of `WebPageController.handlePopup`. -/
structure PopupResult where
  success : Bool
  message : String
  popupFound : Bool
deriving DecidableEq, Repr

/-- `WebPageController.handlePopup` (`src/unnamed/part_003`
lines 1170–1228): best-effort accept/dismiss clicks inside a found modal
(effects that do not alter the returned result are elided); the result is
always `success: true`, with `popupFound: !!modal`. -/
def handlePopup (q : String → Option Modal) (actionParam : Option String) :
    PopupResult :=
  let action := actionParam.getD "accept"
  let modal := findModalLoop q modalSelectors
  { success := true
    message := "Handled popup with action: " ++ action
    popupFound := modal.isSome }

end PageCtrl

namespace Content

/-- The result object of `AutonomousContentController.handleHandlePopup`
(key-event dispatch and close-button click effects elided; they do not
alter the returned result and cannot throw before it). -/
structure PopupHandlerResult where
  message : String
  action : String
deriving DecidableEq, Repr

/-- `AutonomousContentController.handleHandlePopup` (lines 1936–1959). -/
def handleHandlePopup (actionParam : Option String) : PopupHandlerResult :=
  let action := jsToLower (actionParam.getD "dismiss")
  { message := "Popup handling attempted with action: " ++ action
    action := action }

/-- The message-listener response for a `HANDLE_POPUP` command
(`sendResponse({ success: true, ...result })`, lines 1402–1425; the
handler returns normally on every input, so the catch branch producing
`success: false` is unreachable for it). -/
structure DispatchResponse where
  success : Bool
  message : String
  action : String
deriving DecidableEq, Repr

/-- The dispatched `HANDLE_POPUP` response. -/
def dispatchHandlePopup (actionParam : Option String) : DispatchResponse :=
  let r := handleHandlePopup actionParam
  { success := true, message := r.message, action := r.action }

end Content

theorem findModalLoop_none (q : String → Option PageCtrl.Modal)
    (h : ∀ s, q s = none) :
    ∀ l, PageCtrl.findModalLoop q l = none := by
  intro l
  induction l with
  | nil => rfl
  | cons s rest ih =>
    cases rest with
    | nil => simp [PageCtrl.findModalLoop, h s]
    | cons t ts =>
      simp only [PageCtrl.findModalLoop, h s]
      simpa [PageCtrl.findModalLoop] using ih

/-- C8: the `handle_popup` action never fails hard — for every page state
and every input it returns a `success: true` result (both in
`WebPageController.handlePopup` and in the content controller's
`HANDLE_POPUP` dispatch), and when no popup or modal is present on the page
(every modal selector query is empty) the result reports success with
`popupFound: false`. -/
theorem claim_C8_handle_popup_never_fails
    (q : String → Option PageCtrl.Modal) (action : Option String) :
    (PageCtrl.handlePopup q action).success = true
    ∧ ((∀ s, q s = none) → (PageCtrl.handlePopup q action).popupFound = false)
    ∧ (Content.dispatchHandlePopup action).success = true := by
  refine ⟨rfl, ?_, rfl⟩
  intro h
  simp [PageCtrl.handlePopup, findModalLoop_none q h]

/-- Witness for C8: on a page with no modal at all, `handle_popup` (with no
action parameter) succeeds and reports `popupFound: false`. -/
theorem claim_C8_witness :
    (PageCtrl.handlePopup (fun _ => none) none).success = true
    ∧ (PageCtrl.handlePopup (fun _ => none) none).popupFound = false :=
  ⟨(claim_C8_handle_popup_never_fails (fun _ => none) none).1,
   (claim_C8_handle_popup_never_fails (fun _ => none) none).2.1
     (fun _ => rfl)⟩

/-! ## Element resolution (`src/unnamed/part_003`,
`AutonomousContentController`: `resolveElement`,
`findInputByTypeAndPosition`, `findElementByTagAndPosition`,
`findVideoByPosition`, `isVideoElement`) -/

namespace Content

/-- A page element with the attributes the resolver consults.  `tag` is the
lower-cased tag name; `typeAttr` the `type` attribute of inputs (input
elements without a valid `type` attribute expose `el.type === 'text'`,
modelled by `typeAttr.getD "text"`); `visible` summarises the geometric
`isVisible` check; `top`/`left` come from `getBoundingClientRect`;
`matchesVideoQuery` is membership in the CSS query
`'a[href*="/watch"], .ytd-video-renderer a, [class*="video"]'` used by
`findVideoByPosition`. -/
structure PageEl where
  tag : String
  typeAttr : Option String := none
  visible : Bool := true
  top : Int := 0
  left : Int := 0
  href : String := ""
  className : String := ""
  idAttr : String := ""
  matchesVideoQuery : Bool := false
deriving DecidableEq, Repr

/-- The platform DOM lookups used by `resolveElement`, as oracles.
`cssQuery` and `byClassName` return `none` also where the source discards
`document.documentElement`/`document.body` matches or catches an invalid
selector. -/
structure DomOracle where
  xpath : String → Option PageEl
  cssQuery : String → Option PageEl
  byId : String → Option PageEl
  byName : String → Option PageEl
  byDataAgentId : String → Option PageEl
  byClassName : String → Option PageEl

/-- Split a character list at `'_'` (for the synthetic-reference regexes:
`[a-z]+` and `\d+` cannot contain `'_'`). -/
def splitUnderscore : List Char → List (List Char)
  | [] => [[]]
  | c :: cs =>
    let r := splitUnderscore cs
    if c = '_' then [] :: r
    else
      match r with
      | h :: t => (c :: h) :: t
      | [] => [[c]]

/-- `'a'`–`'z'`. -/
def isLowerAlpha (c : Char) : Bool :=
  'a' ≤ c && c ≤ 'z'

/-- The regex `/^input_([a-z]+)_(\d+)$/` of the synthetic-input branch of
`resolveElement`: type segment and 0-based position. -/
def parseSyntheticInput (s : String) : Option (String × Nat) :=
  match splitUnderscore s.data with
  | [w, ty, num] =>
    if w == "input".data && !ty.isEmpty && ty.all isLowerAlpha &&
        !num.isEmpty && num.all Char.isDigit then
      some (⟨ty⟩, digitsToNat num)
    else none
  | _ => none

/-- The regex `/^([a-z]+)_(\d+)$/` of the synthetic tag branch. -/
def parseTagSynthetic (s : String) : Option (String × Nat) :=
  match splitUnderscore s.data with
  | [tg, num] =>
    if !tg.isEmpty && tg.all isLowerAlpha && !num.isEmpty &&
        num.all Char.isDigit then
      some (⟨tg⟩, digitsToNat num)
    else none
  | _ => none

/-- The regex `/^(.+)_video_(\d+)$/` (greedy `.+`): strip the maximal
trailing digit run, require the remainder to end in `"_video_"` with a
non-empty base before it.  (The digit run before a match is maximal because
`'_'` is not a digit, so this is exactly the greedy-regex decomposition.) -/
def parseVideoSuffix (s : String) : Option (String × Nat) :=
  let cs := s.data
  let ds := (cs.reverse.takeWhile Char.isDigit).reverse
  if ds.isEmpty then none
  else
    let pre := cs.take (cs.length - ds.length)
    if leadsWith "_video_".data.reverse pre.reverse && pre.length > 7 then
      some (⟨pre.take (pre.length - 7)⟩, digitsToNat ds)
    else none

/-- One `replace(/^PRE[:_]?/i, '')` step. -/
def stripLeadCI (pre : String) (s : String) : String :=
  if strStarts (jsToLower s) pre then
    let rest : String := ⟨s.data.drop pre.data.length⟩
    if strStarts rest ":" || strStarts rest "_" then ⟨rest.data.drop 1⟩
    else rest
  else s

/-- The `normalized` lookup key of `resolveElement`: strip
`agent_id`/`id`/`name` prefixes, then strip a `_video_N` suffix
(`/^(.+)_video_\d+$/` keeps the base) before the id/name/data/class
lookups. -/
def normalizedLookupKey (t : String) : String :=
  let n := stripLeadCI "name" (stripLeadCI "id" (stripLeadCI "agent_id" t))
  if strContains n "_video_" then
    match parseVideoSuffix n with
    | some (base, _) => base
    | none => n
  else n

/-- `normalized.replace(/[^a-z0-9_-]/gi, '')`. -/
def sanitizeClassName (s : String) : String :=
  ⟨s.data.filter (fun c =>
    isLowerAlpha (lowerChar c) || Char.isDigit c || c = '_' || c = '-')⟩

/-- The layout comparator `(a, b) => |Δtop| > thr ? Δtop : Δleft` as the
strictly-greater predicate driving the stable sort (top-to-bottom with a
`thr`-pixel row tolerance, then left-to-right). -/
def posAfter (thr : Nat) (a b : PageEl) : Bool :=
  if (a.top - b.top).natAbs > thr then decide (b.top < a.top)
  else decide (b.left < a.left)

/-- `AutonomousContentController.isVideoElement` (lines 2128–2150). -/
def isVideoElement (el : PageEl) : Bool :=
  strContains el.className "ytd-video-renderer" ||
    strContains el.className "ytd-compact-video" ||
    strContains el.idAttr "video-title" ||
    strContains el.href "/watch" ||
    (strContains el.href "video" || strContains el.className "video" ||
      strContains el.idAttr "video" || el.tag == "video")

/-- The candidate list of `findInputByTypeAndPosition`:
`querySelectorAll('input[type="T"], input:not([type])')` filtered by
`(el.type || 'text') === T && isVisible(el)` (document order). -/
def visibleInputsOfType (page : List PageEl) (ty : String) : List PageEl :=
  (page.filter (fun el => el.tag == "input" &&
      (el.typeAttr == some ty || el.typeAttr == none))).filter
    (fun el => el.typeAttr.getD "text" == ty && el.visible)

/-- The sorted visible inputs of a type (10-pixel row tolerance). -/
def sortedVisibleInputs (page : List PageEl) (ty : String) : List PageEl :=
  stableSort (posAfter 10) (visibleInputsOfType page ty)

/-- `AutonomousContentController.findInputByTypeAndPosition`
(lines 2477–2510): 0-indexed access into the sorted visible inputs
(`allInputs[targetPosition]`). -/
def findInputByTypeAndPosition (page : List PageEl) (ty : String)
    (pos : Nat) : Option PageEl :=
  (sortedVisibleInputs page ty).get? pos

/-- `querySelectorAll(tagName)` filtered by visibility (document order). -/
def visibleOfTag (page : List PageEl) (tg : String) : List PageEl :=
  page.filter (fun el => el.tag == tg && el.visible)

/-- The sorted visible elements of a tag (10-pixel row tolerance). -/
def sortedVisibleTag (page : List PageEl) (tg : String) : List PageEl :=
  stableSort (posAfter 10) (visibleOfTag page tg)

/-- `AutonomousContentController.findElementByTagAndPosition`
(lines 2512–2530): 0-indexed access (`allElements[targetPosition]`). -/
def findElementByTagAndPosition (page : List PageEl) (tg : String)
    (pos : Nat) : Option PageEl :=
  (sortedVisibleTag page tg).get? pos

/-- The video candidates: elements matching the video CSS query, filtered
by `isVideoElement` and visibility (document order). -/
def visibleVideos (page : List PageEl) : List PageEl :=
  page.filter (fun el => el.matchesVideoQuery && isVideoElement el &&
    el.visible)

/-- The sorted visible videos (50-pixel row tolerance). -/
def sortedVisibleVideos (page : List PageEl) : List PageEl :=
  stableSort (posAfter 50) (visibleVideos page)

/-- `AutonomousContentController.findVideoByPosition` (lines 2457–2475):
1-indexed access (`allVideos[targetPosition - 1]`; position 0 would index
`-1`, which is `undefined`). -/
def findVideoByPosition (page : List PageEl) (pos : Nat) : Option PageEl :=
  match pos with
  | 0 => none
  | p + 1 => (sortedVisibleVideos page).get? p

/-- The synthetic-reference tail of `resolveElement` (lines 2293–2331):
the `input_<type>_N` branch, then the `<tag>_N` branch, then the
`_video_N` suffix branch; each branch returns its (possibly null) result
directly. -/
def syntheticResolve (page : List PageEl) (t : String) : Option PageEl :=
  match parseSyntheticInput t with
  | some (ty, pos) => findInputByTypeAndPosition page ty pos
  | none =>
    match parseTagSynthetic t with
    | some (tg, pos) => findElementByTagAndPosition page tg pos
    | none =>
      if strContains t "_video_" then
        match parseVideoSuffix t with
        | some (_, pos) => findVideoByPosition page pos
        | none => none
      else none

/-- `AutonomousContentController.resolveElement` (lines 2215–2331): falsy
or blank selectors resolve to nothing; `xpath:`/`//`/`(` prefixes go to
XPath; then direct `querySelector`; then id / name / `data-agent-id` /
class lookups on the normalized key; then the synthetic positional
branches. -/
def resolveElement (page : List PageEl) (o : DomOracle)
    (selector : String) : Option PageEl :=
  if selector = "" then none
  else
    let trimmed := jsTrim selector
    if trimmed = "" then none
    else if strStarts trimmed "xpath:" then o.xpath (strDrop trimmed 6)
    else if strStarts trimmed "//" || strStarts trimmed "(" then
      o.xpath trimmed
    else
      match o.cssQuery trimmed with
      | some el => some el
      | none =>
        let normalized := normalizedLookupKey trimmed
        let idPhase : Option PageEl :=
          if normalized = "" then none
          else
            match o.byId normalized with
            | some el => some el
            | none =>
              match o.byName normalized with
              | some el => some el
              | none =>
                match o.byDataAgentId normalized with
                | some el => some el
                | none =>
                  let cls := sanitizeClassName normalized
                  if cls = "" then none else o.byClassName cls
        match idPhase with
        | some el => some el
        | none => syntheticResolve page trimmed

/-- The all-miss oracle: a page offering no XPath/CSS/id/name/data/class
resolution for any key. -/
def noMatchOracle : DomOracle :=
  ⟨fun _ => none, fun _ => none, fun _ => none,
   fun _ => none, fun _ => none, fun _ => none⟩

end Content

theorem resolveElement_fallback (page : List Content.PageEl)
    (o : Content.DomOracle) (ref : String)
    (h1 : ref ≠ "") (h2 : jsTrim ref ≠ "")
    (hx1 : strStarts (jsTrim ref) "xpath:" = false)
    (hx2 : strStarts (jsTrim ref) "//" = false)
    (hx3 : strStarts (jsTrim ref) "(" = false)
    (hq : o.cssQuery (jsTrim ref) = none)
    (hid : o.byId (Content.normalizedLookupKey (jsTrim ref)) = none)
    (hname : o.byName (Content.normalizedLookupKey (jsTrim ref)) = none)
    (hdata : o.byDataAgentId (Content.normalizedLookupKey (jsTrim ref)) = none)
    (hcls : o.byClassName (Content.sanitizeClassName
      (Content.normalizedLookupKey (jsTrim ref))) = none) :
    Content.resolveElement page o ref =
      Content.syntheticResolve page (jsTrim ref) := by
  by_cases hn : Content.normalizedLookupKey (jsTrim ref) = ""
  · simp [Content.resolveElement, h1, h2, hx1, hx2, hx3, hq, hn]
  · by_cases hc : Content.sanitizeClassName
        (Content.normalizedLookupKey (jsTrim ref)) = ""
    · simp [Content.resolveElement, h1, h2, hx1, hx2, hx3, hq, hn, hc,
        hid, hname, hdata]
    · simp [Content.resolveElement, h1, h2, hx1, hx2, hx3, hq, hn, hc,
        hid, hname, hdata, hcls]

/-- C7: given only a synthetic positional reference `input_<type>_N` (the
reference matches the synthetic-input pattern and no XPath/CSS/id/name/
data-agent-id/class lookup resolves it), the element resolver returns the
visible input of that type at 0-indexed position `N` of the list sorted
top-to-bottom (10-pixel row tolerance) then left-to-right. -/
theorem claim_C7_synthetic_input_resolution (page : List Content.PageEl)
    (o : Content.DomOracle) (ref ty : String) (n : Nat)
    (h1 : ref ≠ "") (h2 : jsTrim ref ≠ "")
    (hx1 : strStarts (jsTrim ref) "xpath:" = false)
    (hx2 : strStarts (jsTrim ref) "//" = false)
    (hx3 : strStarts (jsTrim ref) "(" = false)
    (hq : o.cssQuery (jsTrim ref) = none)
    (hid : o.byId (Content.normalizedLookupKey (jsTrim ref)) = none)
    (hname : o.byName (Content.normalizedLookupKey (jsTrim ref)) = none)
    (hdata : o.byDataAgentId (Content.normalizedLookupKey (jsTrim ref)) = none)
    (hcls : o.byClassName (Content.sanitizeClassName
      (Content.normalizedLookupKey (jsTrim ref))) = none)
    (hparse : Content.parseSyntheticInput (jsTrim ref) = some (ty, n)) :
    Content.resolveElement page o ref =
      (Content.sortedVisibleInputs page ty).get? n := by
  rw [resolveElement_fallback page o ref h1 h2 hx1 hx2 hx3 hq hid hname
    hdata hcls]
  simp [Content.syntheticResolve, hparse, Content.findInputByTypeAndPosition]

/-- Witness for C7: on a page with visible text inputs at tops 0, 100, 200
(and a password input between them), `input_text_2` resolves to the third
visible text input — the one at top 200. -/
theorem claim_C7_witness :
    Content.resolveElement
      [ { tag := "input", typeAttr := some "text", top := 0 },
        { tag := "input", typeAttr := some "password", top := 50 },
        { tag := "input", typeAttr := some "text", top := 100 },
        { tag := "input", typeAttr := some "text", top := 200 } ]
      Content.noMatchOracle "input_text_2"
      = some { tag := "input", typeAttr := some "text", top := 200 } :=
  (claim_C7_synthetic_input_resolution
    [ { tag := "input", typeAttr := some "text", top := 0 },
      { tag := "input", typeAttr := some "password", top := 50 },
      { tag := "input", typeAttr := some "text", top := 100 },
      { tag := "input", typeAttr := some "text", top := 200 } ]
    Content.noMatchOracle "input_text_2" "text" 2
    (by decide) (by decide) (by decide) (by decide) (by decide)
    rfl rfl rfl rfl rfl (by decide)).trans (by decide)

/-- C9 counterexample: the claim says every reference ending in `_video_N`
resolves to the 1-indexed `N`-th visible video.  But `input_video_1` ends
in `_video_1` and is captured first by the synthetic-input branch
(`/^input_([a-z]+)_(\d+)$/` with type `"video"`), which finds no input of
type `"video"` — so on a page whose first visible video exists the resolver
returns nothing instead of that video. -/
theorem claim_C9_counterexample :
    strEnds "input_video_1" "_video_1" = true
    ∧ Content.resolveElement
        [ { tag := "a", href := "/watch?v=abc", matchesVideoQuery := true } ]
        Content.noMatchOracle "input_video_1" = none
    ∧ (Content.sortedVisibleVideos
        [ { tag := "a", href := "/watch?v=abc", matchesVideoQuery := true } ]
        ).get? 0
      = some { tag := "a", href := "/watch?v=abc", matchesVideoQuery := true } := by
  refine ⟨by decide, by decide, by decide⟩

/-- C9 (amended): synthetic video positional references are 1-indexed while
the other synthetic positional references are 0-indexed, with the
`input_<type>_N` and `<tag>_N` patterns taking precedence: a reference
ending in `_video_N` that is not itself of the form `input_<type>_N` or
`<tag>_N` resolves to the visible video at 1-indexed position `N`, whereas
`input_<type>_N` and `<tag>_N` references resolve to the element at
0-indexed position `N` of the corresponding sorted visible list. -/
theorem claim_C9_video_indexing (page : List Content.PageEl)
    (o : Content.DomOracle) (ref : String)
    (h1 : ref ≠ "") (h2 : jsTrim ref ≠ "")
    (hx1 : strStarts (jsTrim ref) "xpath:" = false)
    (hx2 : strStarts (jsTrim ref) "//" = false)
    (hx3 : strStarts (jsTrim ref) "(" = false)
    (hq : o.cssQuery (jsTrim ref) = none)
    (hid : o.byId (Content.normalizedLookupKey (jsTrim ref)) = none)
    (hname : o.byName (Content.normalizedLookupKey (jsTrim ref)) = none)
    (hdata : o.byDataAgentId (Content.normalizedLookupKey (jsTrim ref)) = none)
    (hcls : o.byClassName (Content.sanitizeClassName
      (Content.normalizedLookupKey (jsTrim ref))) = none) :
    (∀ ty n, Content.parseSyntheticInput (jsTrim ref) = some (ty, n) →
      Content.resolveElement page o ref =
        (Content.sortedVisibleInputs page ty).get? n)
    ∧ (∀ tg n, Content.parseSyntheticInput (jsTrim ref) = none →
        Content.parseTagSynthetic (jsTrim ref) = some (tg, n) →
        Content.resolveElement page o ref =
          (Content.sortedVisibleTag page tg).get? n)
    ∧ (∀ base n, Content.parseSyntheticInput (jsTrim ref) = none →
        Content.parseTagSynthetic (jsTrim ref) = none →
        strContains (jsTrim ref) "_video_" = true →
        Content.parseVideoSuffix (jsTrim ref) = some (base, n + 1) →
        Content.resolveElement page o ref =
          (Content.sortedVisibleVideos page).get? n) := by
  have hfb := resolveElement_fallback page o ref h1 h2 hx1 hx2 hx3 hq hid
    hname hdata hcls
  refine ⟨?_, ?_, ?_⟩
  · intro ty n hparse
    rw [hfb]
    simp [Content.syntheticResolve, hparse,
      Content.findInputByTypeAndPosition]
  · intro tg n hpi hpt
    rw [hfb]
    simp [Content.syntheticResolve, hpi, hpt,
      Content.findElementByTagAndPosition]
  · intro base n hpi hpt hvc hpv
    rw [hfb]
    simp [Content.syntheticResolve, hpi, hpt, hvc, hpv,
      Content.findVideoByPosition]

/-- Witness for C9 (amended): on a page with two visible videos at tops 0
and 300, `result_video_1` resolves to the *first* video (1-indexed), while
on a page with two visible text inputs `input_text_1` resolves to the
*second* input (0-indexed). -/
theorem claim_C9_witness :
    Content.resolveElement
      [ { tag := "a", href := "/watch?v=one", matchesVideoQuery := true },
        { tag := "a", href := "/watch?v=two", matchesVideoQuery := true, top := 300 } ]
      Content.noMatchOracle "result_video_1"
      = some { tag := "a", href := "/watch?v=one", matchesVideoQuery := true }
    ∧ Content.resolveElement
      [ { tag := "input", typeAttr := some "text" },
        { tag := "input", typeAttr := some "text", top := 300 } ]
      Content.noMatchOracle "input_text_1"
      = some { tag := "input", typeAttr := some "text", top := 300 } :=
  ⟨((claim_C9_video_indexing
      [ { tag := "a", href := "/watch?v=one", matchesVideoQuery := true },
        { tag := "a", href := "/watch?v=two", matchesVideoQuery := true, top := 300 } ]
      Content.noMatchOracle "result_video_1"
      (by decide) (by decide) (by decide) (by decide) (by decide)
      rfl rfl rfl rfl rfl).2.2 "result" 0
      (by decide) (by decide) (by decide) (by decide)).trans (by decide),
   ((claim_C9_video_indexing
      [ { tag := "input", typeAttr := some "text" },
        { tag := "input", typeAttr := some "text", top := 300 } ]
      Content.noMatchOracle "input_text_1"
      (by decide) (by decide) (by decide) (by decide) (by decide)
      rfl rfl rfl rfl rfl).1 "text" 1 (by decide)).trans (by decide)⟩

/-! ## Type-action element fallback (`src/unnamed/part_003`,
`AutonomousContentController`: `handleType` lines 1464–1553,
`isTypeableElement` lines 1741–1755, `findNearbyInput` lines 1760–1788;
`handleSearch` first delegates to `handleType`, so the same targeting
applies to search actions) -/

namespace Content

/-- An element as consulted by the type-action targeting: tag name, the
`isContentEditable` flag, whether it has a `value` property, and its
bounding-box centre (for `getElementDistance`). -/
structure TypeEl where
  tagName : String
  contentEditable : Bool := false
  hasValueProp : Bool := false
  cx : Int := 0
  cy : Int := 0
deriving DecidableEq, Repr

/-- `AutonomousContentController.isTypeableElement`. -/
def isTypeableElement (e : TypeEl) : Bool :=
  e.contentEditable || e.hasValueProp ||
    (jsToLower e.tagName == "input" || jsToLower e.tagName == "textarea")

/-- `AutonomousContentController.getElementDistance`, compared at the
squared level: the source takes `Math.sqrt` of this value, and square root
is strictly monotone, so every comparison of distances coincides with the
comparison of these squares. -/
def getElementDistanceSq (a b : TypeEl) : Int :=
  (b.cx - a.cx) * (b.cx - a.cx) + (b.cy - a.cy) * (b.cy - a.cy)

/-- The second phase of `findNearbyInput`: walk up to the next containers
(the caller passes the first three ancestor levels); in the first container
whose input query is non-empty, return the input nearest to `el`
(`sort((a,b) => distA - distB)[0]`; ties keep document order). -/
def nearbyScan (el : TypeEl) : List (List TypeEl) → Option TypeEl
  | [] => none
  | c :: rest =>
    if c.isEmpty then nearbyScan el rest
    else (stableSort (fun a b =>
      decide (getElementDistanceSq el b < getElementDistanceSq el a))
      c).head?

/-- `AutonomousContentController.findNearbyInput`.  `ancestors` lists, per
ancestor level (parent first), the document-order result of the container's
input query (`'input[type="text"], input[type="search"], input:not([type]),
textarea, [contenteditable="true"]'`); a missing `parentElement` truncates
the list.  Phase one returns the *first* input of the direct parent;
phase two scans up to three ancestor levels for the *nearest* input. -/
def findNearbyInput (el : TypeEl) (ancestors : List (List TypeEl)) :
    Option TypeEl :=
  match ancestors with
  | [] => none
  | parentInputs :: _ =>
    match parentInputs with
    | x :: _ => some x
    | [] => nearbyScan el (ancestors.take 3)

/-- The targeting phase of `handleType`: the located element if typeable;
otherwise a nearby input; otherwise the post-click `document.activeElement`
(`activeAfterClick`; `none` models both no focus change and a click
failure) when typeable; otherwise the cannot-accept-text error. -/
def selectTypeTarget (located : TypeEl) (ancestors : List (List TypeEl))
    (activeAfterClick : Option TypeEl) : Except String TypeEl :=
  if isTypeableElement located then .ok located
  else
    match findNearbyInput located ancestors with
    | some nearby => .ok nearby
    | none =>
      let el :=
        match activeAfterClick with
        | some a => if isTypeableElement a then a else located
        | none => located
      if !isTypeableElement el then
        .error ("Target element cannot accept text input. Element type: " ++
          jsToLower el.tagName ++ ", contentEditable: " ++
          toString el.contentEditable ++ ", has value property: " ++
          toString el.hasValueProp)
      else .ok el

/-- `handleType` down to the element actually typed into: after targeting,
the text goes into `textContent` for contenteditable targets or `value`
character-wise otherwise; a target with neither throws the post-fallback
error.  `.ok el` = success reported after typing into `el`. -/
def handleTypeTarget (located : TypeEl) (ancestors : List (List TypeEl))
    (activeAfterClick : Option TypeEl) : Except String TypeEl :=
  match selectTypeTarget located ancestors activeAfterClick with
  | .error m => .error m
  | .ok el =>
    if el.contentEditable then .ok el
    else if el.hasValueProp then .ok el
    else .error "Target element cannot accept text input after fallback attempts"

end Content

theorem nearbyScan_mem (el : Content.TypeEl) (nb : Content.TypeEl) :
    ∀ l, Content.nearbyScan el l = some nb → ∃ c ∈ l, nb ∈ c := by
  intro l
  induction l with
  | nil => intro h; simp [Content.nearbyScan] at h
  | cons c rest ih =>
    intro h
    by_cases hc : c.isEmpty
    · rw [Content.nearbyScan, if_pos hc] at h
      obtain ⟨d, hd, hnb⟩ := ih h
      exact ⟨d, List.mem_cons_of_mem _ hd, hnb⟩
    · rw [Content.nearbyScan, if_neg hc] at h
      have hmem : nb ∈ stableSort (fun a b =>
          decide (Content.getElementDistanceSq el b <
            Content.getElementDistanceSq el a)) c := by
        cases hs : stableSort (fun a b =>
            decide (Content.getElementDistanceSq el b <
              Content.getElementDistanceSq el a)) c with
        | nil => rw [hs] at h; simp at h
        | cons y ys =>
          rw [hs] at h
          simp only [List.head?] at h
          cases h
          exact List.mem_cons_self _ _
      rw [mem_stableSort] at hmem
      exact ⟨c, List.mem_cons_self _ _, hmem⟩

theorem findNearbyInput_mem (el nb : Content.TypeEl)
    (ancestors : List (List Content.TypeEl))
    (h : Content.findNearbyInput el ancestors = some nb) :
    ∃ c ∈ ancestors, nb ∈ c := by
  cases ancestors with
  | nil => simp [Content.findNearbyInput] at h
  | cons parentInputs rest =>
    cases parentInputs with
    | cons x xs =>
      simp only [Content.findNearbyInput] at h
      have hx : x = nb := Option.some.inj h
      subst hx
      exact ⟨x :: xs, List.mem_cons_self _ _, List.mem_cons_self _ _⟩
    | nil =>
      simp only [Content.findNearbyInput] at h
      obtain ⟨c, hc, hnb⟩ := nearbyScan_mem el nb _ h
      exact ⟨c, List.mem_of_mem_take hc, hnb⟩

/-- C10 counterexample: the claim describes the substituted nearby input as
"nearest by geometric distance", but when the direct parent contains
inputs, `findNearbyInput` returns the *first* one in document order.  Here
the parent holds inputs centred at (100,100) and (1,1); typing into a
non-typeable `div` at the origin substitutes the far first input, although
the second is strictly nearer. -/
theorem claim_C10_counterexample :
    Content.handleTypeTarget ⟨"div", false, false, 0, 0⟩
      [[⟨"input", false, true, 100, 100⟩, ⟨"input", false, true, 1, 1⟩]]
      none
      = .ok ⟨"input", false, true, 100, 100⟩
    ∧ Content.getElementDistanceSq ⟨"div", false, false, 0, 0⟩
        ⟨"input", false, true, 1, 1⟩
      < Content.getElementDistanceSq ⟨"div", false, false, 0, 0⟩
        ⟨"input", false, true, 100, 100⟩
    ∧ (⟨"input", false, true, 100, 100⟩ : Content.TypeEl)
        ≠ ⟨"input", false, true, 1, 1⟩ := by
  refine ⟨rfl, by decide, by decide⟩

/-- C10 (amended): when the element located for a type (or search) action
is not itself typeable, the type executor does not fail: it silently
substitutes either a nearby input found within 3 ancestor levels (the
first input in document order when the direct parent contains one,
otherwise the nearest by geometric distance in the closest ancestor
container that has inputs) or, failing that, the element that becomes
`document.activeElement` after clicking the located element, and types into
that substitute reporting success; it throws an element-cannot-accept-text
error exactly when no such substitute exists.  The hypotheses record that
the container input query only yields contenteditable or value-bearing
elements, as its selector list guarantees in a real DOM. -/
theorem claim_C10_type_fallback (located : Content.TypeEl)
    (ancestors : List (List Content.TypeEl))
    (active : Option Content.TypeEl)
    (hloc : Content.isTypeableElement located = false)
    (hanc : ∀ c ∈ ancestors, ∀ e ∈ c,
      e.contentEditable = true ∨ e.hasValueProp = true)
    (hact : ∀ a, active = some a → Content.isTypeableElement a = true →
      a.contentEditable = true ∨ a.hasValueProp = true) :
    (∀ nb, Content.findNearbyInput located ancestors = some nb →
      Content.handleTypeTarget located ancestors active = .ok nb)
    ∧ (Content.findNearbyInput located ancestors = none →
        ∀ a, active = some a → Content.isTypeableElement a = true →
        Content.handleTypeTarget located ancestors active = .ok a)
    ∧ (Content.findNearbyInput located ancestors = none →
        (∀ a, active = some a → Content.isTypeableElement a = false) →
        ∃ m, Content.handleTypeTarget located ancestors active = .error m) := by
  refine ⟨?_, ?_, ?_⟩
  · intro nb hnb
    obtain ⟨c, hc, hmem⟩ := findNearbyInput_mem located nb ancestors hnb
    have hty := hanc c hc nb hmem
    have hsel : Content.selectTypeTarget located ancestors active = .ok nb := by
      simp [Content.selectTypeTarget, hloc, hnb]
    rcases hty with hce | hval
    · simp [Content.handleTypeTarget, hsel, hce]
    · simp [Content.handleTypeTarget, hsel, hval]
  · intro hnone a ha htype
    have hty := hact a ha htype
    have hsel : Content.selectTypeTarget located ancestors active = .ok a := by
      simp [Content.selectTypeTarget, hloc, hnone, ha, htype]
    rcases hty with hce | hval
    · simp [Content.handleTypeTarget, hsel, hce]
    · simp [Content.handleTypeTarget, hsel, hval]
  · intro hnone hnoact
    refine ⟨"Target element cannot accept text input. Element type: " ++
      jsToLower located.tagName ++ ", contentEditable: " ++
      toString located.contentEditable ++ ", has value property: " ++
      toString located.hasValueProp, ?_⟩
    cases hac : active with
    | none =>
      simp [Content.handleTypeTarget, Content.selectTypeTarget, hloc,
        hnone, hac]
    | some a =>
      have hat := hnoact a hac
      simp [Content.handleTypeTarget, Content.selectTypeTarget, hloc,
        hnone, hac, hat]

/-- Witness for C10 (amended): a type action located on a bare `div` with a
single input in its parent container types into that input and reports
success. -/
theorem claim_C10_witness :
    Content.handleTypeTarget ⟨"div", false, false, 0, 0⟩
      [[⟨"input", false, true, 5, 5⟩]] none
      = .ok ⟨"input", false, true, 5, 5⟩ :=
  (claim_C10_type_fallback ⟨"div", false, false, 0, 0⟩
    [[⟨"input", false, true, 5, 5⟩]] none (by decide) (by decide)
    (fun a h _ => Option.noConfusion h)).1
    ⟨"input", false, true, 5, 5⟩ (by decide)
